import Mathlib

/-!
A verification development for the power-forecast photovoltaic plant
simulator.  The Python sources are embedded shallowly: a pandas Series
becomes a per-sample value mapped over a list, machine floats become
exact rationals, a possibly-missing float (NaN) becomes an Option, and
code that raises becomes an Except value.  Calls into the external
pvlib library are either modelled from the specification (the PVWatts
DC and inverter formulas, the Faiman and PVsyst cell-temperature
formulas) or kept abstract as quantified stage functions, so that the
proved properties hold for every possible library output.
-/

namespace PowerForecast

/-- Error taxonomy of the simulator (spec section 7).  The unknown
loss-category lookup in src/src/models/losses.py raises a ValueError,
which the spec classifies as a ConfigurationError. -/
inductive SimError where
  | configurationError
  | dataError
  | numericDomainError

/-- One hourly weather record handed to the core, with the timestamp as
an epoch hour index and irradiance in W per square metre. -/
structure WeatherSample where
  timestamp : ℤ
  ghi : ℚ
  dni : ℚ
  dhi : ℚ
  temp_air : ℚ
  wind_speed : ℚ

/-- Location parameters read by PVSimulator.__init__. -/
structure LocationParams where
  latitude : ℚ
  longitude : ℚ
  altitude : ℚ

/-- System (array geometry) parameters read by PVSimulator.__init__. -/
structure SystemParams where
  capacity_kw : ℚ
  tilt : ℚ
  azimuth : ℚ
  albedo : ℚ
  mounting_type : String

/-- Module electrical parameters used by PVSimulator._calculate_dc_power. -/
structure ModuleParams where
  gamma_pmp : ℚ
  T_ref : ℚ

/-- Inverter parameters.  PVSimulator._calculate_ac_power reads only
pdc0, eta_inv_nom, eta_inv_ref and pac0; the remaining fields are
stored at construction but never read by the pipeline. -/
structure InverterParams where
  pdc0 : ℚ
  pac0 : ℚ
  eta_inv_nom : ℚ
  eta_inv_ref : ℚ := 9637/10000
  pdc_min : ℚ
  pdc_max : ℚ
  vdc_min : ℚ
  vdc_max : ℚ

/-- Ordered mapping from loss-category name to fractional derate,
mirroring the insertion-ordered Python dict in loss_params.py. -/
abbrev LossProfile := List (String × ℚ)

/-- SystemLosses.apply_all_losses: folds over the configured losses in
declared order, multiplying by (1 - loss_value) whenever loss_value is
positive (src/src/models/losses.py lines 11 to 22). -/
def apply_all_losses (L : LossProfile) (dc_power : ℚ) : ℚ :=
  L.foldl (fun acc nv => if nv.2 > 0 then acc * (1 - nv.2) else acc) dc_power

/-- SystemLosses.get_total_loss_factor: the retained fraction, a fold
starting at 1 multiplying every (1 - loss_value)
(src/src/models/losses.py lines 24 to 32). -/
def get_total_loss_factor (L : LossProfile) : ℚ :=
  L.foldl (fun acc nv => acc * (1 - nv.2)) 1

/-- SystemLosses.apply_individual_loss: an unknown category name raises
(ValueError in the source, the ConfigurationError kind of the spec);
a known name multiplies by (1 - loss_value)
(src/src/models/losses.py lines 102 to 110). -/
def apply_individual_loss (L : LossProfile) (power : ℚ) (name : String) :
    Except SimError ℚ :=
  match List.lookup name L with
  | none => Except.error SimError.configurationError
  | some v => Except.ok (power * (1 - v))

/-- TemperatureModel configuration: mounting type and model name, as
stored by TemperatureModel.__init__. -/
structure TemperatureModel where
  mounting_type : String
  model : String

/-- TemperatureModel._get_temperature_model_params: the u0/u1 (Faiman)
or u_c/u_v (PVsyst) coefficient pair selected by model and mounting
category (src/src/models/temperature.py lines 17 to 63). -/
def get_temperature_model_params (tm : TemperatureModel) : ℚ × ℚ :=
  if tm.model = "faiman" then
    if tm.mounting_type = "roof_mounted" then (29, 1)
    else if tm.mounting_type = "open_rack" then (25, 684/100)
    else (26, 12/10)
  else if tm.model = "pvsyst" then
    if tm.mounting_type = "roof_mounted" then (29, 0) else (25, 12/10)
  else (25, 684/100)

/-- The raw (pre-postprocessing) cell temperature of
TemperatureModel.calculate_cell_temperature.  The faiman branch models
pvlib.temperature.faiman, temp_air + poa / (u0 + u1 * wind); the pvsyst
branch models pvlib.temperature.pvsyst_cell with its default absorption
0.9 and module efficiency 0.1; the fallback branch is the inline NOCT
formula of the source (src/src/models/temperature.py lines 72 to 95). -/
def cell_temp_raw (tm : TemperatureModel) (poa_global temp_air wind_speed : ℚ) : ℚ :=
  if tm.model = "faiman" then
    temp_air + poa_global /
      ((get_temperature_model_params tm).1 + (get_temperature_model_params tm).2 * wind_speed)
  else if tm.model = "pvsyst" then
    temp_air + poa_global * (9/10) * (1 - 1/10) /
      ((get_temperature_model_params tm).1 + (get_temperature_model_params tm).2 * wind_speed)
  else
    temp_air + ((if tm.mounting_type = "roof_mounted" then (50 : ℚ) else 45) - 20) / 800 * poa_global

/-- TemperatureModel.calculate_cell_temperature, postprocessing
included: the night rule (poa_global at most 0 gives temp_air), the
floor at temp_air, and the final clip to [-40, 85]
(src/src/models/temperature.py lines 97 to 105). -/
def calculate_cell_temperature (tm : TemperatureModel) (poa_global temp_air wind_speed : ℚ) : ℚ :=
  min (max (max (if poa_global ≤ 0 then temp_air
                 else cell_temp_raw tm poa_global temp_air wind_speed) temp_air) (-40)) 85

/-- IrradianceModel._calculate_iam postprocessing: the raw output of the
external pvlib physical IAM model is abstracted as an Option (none is a
NaN), then fillna(0) and clip to [0, 1] are applied
(src/src/models/irradiance.py lines 133 to 151). -/
def calculate_iam (raw : Option ℚ) : ℚ :=
  min (max (raw.getD 0) 0) 1

/-- The effective POA of IrradianceModel.calculate_poa: poa_global
times the IAM, clipped to be nonnegative
(src/src/models/irradiance.py lines 57 to 61). -/
def poa_effective_of (poa_global iam_value : ℚ) : ℚ :=
  max (poa_global * iam_value) 0

/-- Modelled from the spec: pvlib.pvsystem.pvwatts_dc, the PVWatts DC
formula pdc0 * (effective irradiance / 1000) * (1 + gamma * (T - Tref)).
The pvlib implementation is external to the repository. -/
def pvwatts_dc (pdc0 gamma_pdc temp_ref effective_irradiance temp_cell : ℚ) : ℚ :=
  pdc0 * (effective_irradiance / 1000) * (1 + gamma_pdc * (temp_cell - temp_ref))

/-- PVSimulator._calculate_dc_power: the PVWatts DC formula with the
plant capacity as pdc0, clipped at 0
(src/src/core/pv_simulator.py lines 95 to 109). -/
def calculate_dc_power (sys : SystemParams) (m : ModuleParams)
    (poa_effective cell_temp : ℚ) : ℚ :=
  max (pvwatts_dc sys.capacity_kw m.gamma_pmp m.T_ref poa_effective cell_temp) 0

/-- Modelled from the spec: the loading-dependent efficiency of
pvlib.inverter.pvwatts, eta_nom / eta_ref * (-0.0162 z - 0.0059 / z
+ 0.9858) with z the loading ratio pdc / pdc0.  Rational division by
zero is total in Lean; the definition is faithful for pdc and pdc0
nonzero, which every theorem using a concrete loading respects. -/
def pvwatts_inverter_eta (pdc0 eta_inv_nom eta_inv_ref pdc : ℚ) : ℚ :=
  eta_inv_nom / eta_inv_ref *
    (-(162/10000) * (pdc / pdc0) - (59/10000) / (pdc / pdc0) + 9858/10000)

/-- Modelled from the spec: pvlib.inverter.pvwatts, eta times pdc,
capped at the internal rated AC limit eta_inv_nom * pdc0 and floored
at 0.  The pvlib implementation is external to the repository. -/
def pvwatts_inverter (pdc0 eta_inv_nom eta_inv_ref pdc : ℚ) : ℚ :=
  max 0 (min (eta_inv_nom * pdc0)
    (pvwatts_inverter_eta pdc0 eta_inv_nom eta_inv_ref pdc * pdc))

/-- PVSimulator._calculate_ac_power on a numeric value: the pvlib
PVWatts inverter output clipped to [0, pac0]
(src/src/core/pv_simulator.py lines 111 to 125). -/
def calculate_ac_power (inv : InverterParams) (pdc : ℚ) : ℚ :=
  min (max (pvwatts_inverter inv.pdc0 inv.eta_inv_nom inv.eta_inv_ref pdc) 0) inv.pac0

/-- The PVSimulator object assembled by PVSimulator.__init__
(src/src/core/pv_simulator.py lines 13 to 42). -/
structure PVSimulator where
  location : LocationParams
  system : SystemParams
  module : ModuleParams
  inverter : InverterParams
  loss_params : LossProfile

/-- PVSimulator.__init__, which stores the five parameter groups and
builds the submodels.  No range check and no raise statement exists on
this path, so construction always succeeds; the Except result type only
records that fact against the error taxonomy of the spec. -/
def pv_simulator_init (loc : LocationParams) (sys : SystemParams)
    (m : ModuleParams) (inv : InverterParams) (loss : LossProfile) :
    Except SimError PVSimulator :=
  Except.ok { location := loc, system := sys, module := m,
              inverter := inv, loss_params := loss }

/-- The temperature model built by PVSimulator.__init__
(mounting type from the system parameters, model fixed to faiman). -/
def simTempModel (sim : PVSimulator) : TemperatureModel :=
  { mounting_type := sim.system.mounting_type, model := "faiman" }

/-- Per-sample outputs of the pvlib transposition stage
(IrradianceModel.calculate_poa).  The solar-position and Perez
computations live in the external pvlib library, so they are kept
abstract; theorems quantify over this stage. -/
structure IrradianceStage where
  poa_global : WeatherSample → ℚ
  poa_effective : WeatherSample → ℚ

/-- The external pvlib.inverter.pvwatts call as used by
_calculate_ac_power: a function of the four values the source passes
(pdc0, eta_inv_nom, eta_inv_ref, pdc); a none result models a NaN
(for instance from the zero-loading division). -/
abbrev InverterRaw := ℚ → ℚ → ℚ → ℚ → Option ℚ

/-- The cell-temperature series entry for one weather sample, as in
run_simulation step 3 (src/src/core/pv_simulator.py lines 57 to 64). -/
def cell_temp_of (sim : PVSimulator) (irr : IrradianceStage) (w : WeatherSample) : ℚ :=
  calculate_cell_temperature (simTempModel sim) (irr.poa_global w) w.temp_air w.wind_speed

/-- The DC power series entry for one weather sample, as in
run_simulation step 4 (src/src/core/pv_simulator.py lines 66 to 72). -/
def dc_power_of (sim : PVSimulator) (irr : IrradianceStage) (w : WeatherSample) : ℚ :=
  calculate_dc_power sim.system sim.module (irr.poa_effective w) (cell_temp_of sim irr w)

/-- The derated DC power series entry for one weather sample, as in
run_simulation step 5 (src/src/core/pv_simulator.py lines 74 to 77). -/
def dc_after_loss_of (sim : PVSimulator) (irr : IrradianceStage) (w : WeatherSample) : ℚ :=
  apply_all_losses sim.loss_params (dc_power_of sim irr w)

/-- The AC power series entry for one weather sample: the raw library
value (possibly NaN, hence Option) clipped to [0, pac0], as in
run_simulation step 6; a pandas clip leaves a NaN in place
(src/src/core/pv_simulator.py lines 81 to 84 and 111 to 125). -/
def ac_power_of (sim : PVSimulator) (irr : IrradianceStage) (invRaw : InverterRaw)
    (w : WeatherSample) : Option ℚ :=
  (invRaw sim.inverter.pdc0 sim.inverter.eta_inv_nom sim.inverter.eta_inv_ref
    (dc_after_loss_of sim irr w)).map (fun x => min (max x 0) sim.inverter.pac0)

/-- The final energy value for one weather sample: energy_kwh is the AC
power series with _format_results applying fillna(0)
(src/src/core/pv_simulator.py lines 86 to 93 and 127 to 141). -/
def energy_of (sim : PVSimulator) (irr : IrradianceStage) (invRaw : InverterRaw)
    (w : WeatherSample) : ℚ :=
  (ac_power_of sim irr invRaw w).getD 0

/-- PVSimulator.run_simulation followed by _format_results: one
(timestamp, energy_kwh) pair per input sample, every stage applied
elementwise over the index-aligned series
(src/src/core/pv_simulator.py lines 44 to 93 and 127 to 141). -/
def run_simulation (sim : PVSimulator) (irr : IrradianceStage) (invRaw : InverterRaw)
    (weather : List WeatherSample) : List (ℤ × ℚ) :=
  weather.map (fun w => (w.timestamp, energy_of sim irr invRaw w))

/-- The LOCATION configuration constant of src/src/config/system_params.py. -/
def LOCATION : LocationParams :=
  { latitude := 313/10, longitude := 12062/100, altitude := 5 }

/-- The SYSTEM configuration constant of src/src/config/system_params.py. -/
def SYSTEM : SystemParams :=
  { capacity_kw := 1000, tilt := 3, azimuth := 180, albedo := 2/10,
    mounting_type := "roof_mounted" }

/-- The MODULE configuration constant of src/src/config/system_params.py
(the fields the pipeline reads). -/
def MODULE : ModuleParams :=
  { gamma_pmp := -(35/10000), T_ref := 25 }

/-- The INVERTER configuration constant of src/src/config/system_params.py
(the electrical fields). -/
def INVERTER : InverterParams :=
  { pdc0 := 1000, pac0 := 1000, eta_inv_nom := 98/100, eta_inv_ref := 9637/10000,
    pdc_min := 50, pdc_max := 1050, vdc_min := 450, vdc_max := 1000 }

/-- The LOSSES configuration constant of src/src/config/loss_params.py,
in its declared order. -/
def LOSSES : LossProfile :=
  [("soiling", 2/100), ("shading", 0), ("snow", 0),
   ("mismatch", 2/100), ("wiring", 2/100), ("connections", 5/1000),
   ("lid", 15/1000), ("nameplate_rating", 1/100), ("age", 0),
   ("availability", 1/100)]

/-- A SYSTEM variant whose tilt 200 lies outside the physical range
[0, 90] of the spec. -/
def SYSTEM_bad_tilt : SystemParams :=
  { SYSTEM with tilt := 200 }

/-- An INVERTER variant differing from INVERTER only in the four fields
the pipeline never reads (pdc_min, pdc_max, vdc_min, vdc_max). -/
def INVERTER_alt : InverterParams :=
  { INVERTER with pdc_min := 999, pdc_max := 2000, vdc_min := 100, vdc_max := 1200 }

/-- A simple concrete transposition stage used to instantiate theorems
at a concrete input. -/
def irr_from_ghi : IrradianceStage :=
  { poa_global := fun w => w.ghi, poa_effective := fun w => w.ghi }

/-- The concrete PVWatts inverter stage (numeric on every input). -/
def pvwatts_inv_raw : InverterRaw :=
  fun pdc0 eta_inv_nom eta_inv_ref pdc =>
    some (pvwatts_inverter pdc0 eta_inv_nom eta_inv_ref pdc)

/-- An inverter stage that returns NaN, used to instantiate the
fillna theorem at a concrete input. -/
def none_inv_raw : InverterRaw := fun _ _ _ _ => none

/-- One concrete weather sample. -/
def sample_w : WeatherSample :=
  { timestamp := 0, ghi := 800, dni := 600, dhi := 150, temp_air := 25, wind_speed := 2 }

/-- A one-sample weather list. -/
def sample_weather : List WeatherSample := [sample_w]

/-- The simulator built from the configuration constants. -/
def sample_sim : PVSimulator :=
  { location := LOCATION, system := SYSTEM, module := MODULE,
    inverter := INVERTER, loss_params := LOSSES }

/-- The retained-fraction fold with a generalized accumulator is the
accumulator times the product of the factors. -/
lemma foldl_factor (L : LossProfile) :
    ∀ a : ℚ, L.foldl (fun acc nv => acc * (1 - nv.2)) a
      = a * (L.map fun nv => (1 : ℚ) - nv.2).prod := by
  induction L with
  | nil => intro a; simp
  | cons x t ih =>
    intro a
    simp only [List.foldl_cons, List.map_cons, List.prod_cons, ih]
    ring

/-- get_total_loss_factor is the product of (1 - loss) over the profile. -/
lemma get_total_loss_factor_eq_prod (L : LossProfile) :
    get_total_loss_factor L = (L.map fun nv => (1 : ℚ) - nv.2).prod := by
  rw [get_total_loss_factor, foldl_factor, one_mul]

/-- With nonnegative fractions, the cascade equals the power times the
product of the factors (a zero fraction is skipped by the source but
contributes the factor 1). -/
lemma apply_all_losses_eq_prod :
    ∀ L : LossProfile, (∀ nv ∈ L, (0 : ℚ) ≤ nv.2) → ∀ p : ℚ,
      apply_all_losses L p = p * (L.map fun nv => (1 : ℚ) - nv.2).prod := by
  intro L
  induction L with
  | nil => intro _ p; simp [apply_all_losses]
  | cons x t ih =>
    intro hL p
    have ht : ∀ nv ∈ t, (0 : ℚ) ≤ nv.2 := fun nv h => hL nv (List.mem_cons_of_mem x h)
    have step : apply_all_losses (x :: t) p
        = apply_all_losses t (if x.2 > 0 then p * (1 - x.2) else p) := rfl
    rw [step]
    by_cases hpos : x.2 > 0
    · rw [if_pos hpos, ih ht, List.map_cons, List.prod_cons]; ring
    · have hz : x.2 = 0 := le_antisymm (not_lt.mp hpos) (hL x (List.mem_cons_self x t))
      rw [if_neg hpos, ih ht, List.map_cons, List.prod_cons, hz]; ring

/-- Claim C1: for a loss profile with fractions in [0, 1) and a power
value p at least 0, the cascade yields exactly p times the product of
(1 - loss) over all categories, that combined retained fraction is
get_total_loss_factor and is invariant under permutation of the
categories, and a zero-valued loss changes nothing. -/
theorem losses_cascade_product (L : LossProfile) (p : ℚ)
    (hL : ∀ nv ∈ L, (0 : ℚ) ≤ nv.2 ∧ nv.2 < 1) (hp : 0 ≤ p) :
    apply_all_losses L p = p * get_total_loss_factor L
    ∧ (∀ L2, List.Perm L L2 → get_total_loss_factor L2 = get_total_loss_factor L)
    ∧ ∀ name, apply_all_losses ((name, (0 : ℚ)) :: L) p = apply_all_losses L p := by
  have h0 : ∀ nv ∈ L, (0 : ℚ) ≤ nv.2 := fun nv h => (hL nv h).1
  refine ⟨?_, ?_, ?_⟩
  · rw [apply_all_losses_eq_prod L h0 p, get_total_loss_factor_eq_prod]
  · intro L2 hperm
    rw [get_total_loss_factor_eq_prod, get_total_loss_factor_eq_prod]
    exact (hperm.map fun nv => (1 : ℚ) - nv.2).prod_eq.symm
  · intro name
    have step : apply_all_losses ((name, (0 : ℚ)) :: L) p
        = apply_all_losses L (if (0 : ℚ) > 0 then p * (1 - 0) else p) := rfl
    rw [step, if_neg (lt_irrefl 0)]

/-- Witness for C1 at the configured loss profile and power 2. -/
theorem losses_cascade_product_witness :
    apply_all_losses LOSSES 2 = 2 * get_total_loss_factor LOSSES :=
  (losses_cascade_product LOSSES 2
    (by
      intro nv h
      simp only [LOSSES, List.mem_cons, List.not_mem_nil, or_false] at h
      rcases h with rfl | rfl | rfl | rfl | rfl | rfl | rfl | rfl | rfl | rfl <;> norm_num)
    (by norm_num)).1

/-- Counterexample for C2: at poa_global = 0 the night rule sets the
cell temperature to temp_air, but the final clamp to [-40, 85] then
moves an ambient temperature of -50 to -40, so the result is not
temp_air exactly. -/
theorem cell_temp_night_clamp_cex :
    calculate_cell_temperature ⟨"roof_mounted", "faiman"⟩ 0 (-50) 0 = -40
    ∧ ((-40 : ℚ) ≠ -50) := by
  constructor
  · unfold calculate_cell_temperature
    rw [if_pos (le_refl (0 : ℚ)), max_self,
        max_eq_right (by norm_num : (-50 : ℚ) ≤ -40),
        min_eq_left (by norm_num : (-40 : ℚ) ≤ 85)]
  · norm_num

/-- Claim C2 (amended): when poa_global is at most 0 the cell
temperature is temp_air clamped to [-40, 85], and it equals temp_air
exactly whenever temp_air lies in [-40, 85]. -/
theorem cell_temp_night_eq_clamped_air (tm : TemperatureModel)
    (poa ta ws : ℚ) (hpoa : poa ≤ 0) :
    calculate_cell_temperature tm poa ta ws = min (max ta (-40)) 85
    ∧ (-40 ≤ ta → ta ≤ 85 → calculate_cell_temperature tm poa ta ws = ta) := by
  have h1 : calculate_cell_temperature tm poa ta ws = min (max ta (-40)) 85 := by
    unfold calculate_cell_temperature
    rw [if_pos hpoa, max_self]
  refine ⟨h1, fun hlo hhi => ?_⟩
  rw [h1, max_eq_left hlo, min_eq_left hhi]

/-- Witness for C2 at a night sample with in-range ambient temperature. -/
theorem cell_temp_night_witness :
    calculate_cell_temperature ⟨"open_rack", "faiman"⟩ 0 20 1 = 20 :=
  (cell_temp_night_eq_clamped_air ⟨"open_rack", "faiman"⟩ 0 20 1 (le_refl 0)).2
    (by norm_num) (by norm_num)

/-- Claim C3: the DC power is exactly max(0, pdc0 * (effective poa /
1000) * (1 + gamma * (cell temp - T_ref))) with pdc0 the configured
plant capacity, and in particular it is never negative. -/
theorem dc_power_formula (sys : SystemParams) (m : ModuleParams) (e ct : ℚ) :
    calculate_dc_power sys m e ct
      = max 0 (sys.capacity_kw * (e / 1000) * (1 + m.gamma_pmp * (ct - m.T_ref)))
    ∧ 0 ≤ calculate_dc_power sys m e ct := by
  constructor
  · unfold calculate_dc_power pvwatts_dc
    exact max_comm _ 0
  · unfold calculate_dc_power
    exact le_max_right _ 0

/-- Counterexample for C4: with the configured inverter (pdc0 = 1000,
pac0 = 1000, eta_inv_nom = 0.98) a derated DC power of 1100 kW drives
the efficiency curve output above pac0, yet the AC power is capped at
the internal PVWatts limit eta_inv_nom * pdc0 = 980 kW, not at pac0. -/
theorem ac_power_clip_cex :
    pvwatts_inverter_eta 1000 (98/100) (9637/10000) 1100 * 1100 > 1000
    ∧ calculate_ac_power INVERTER 1100 = 980
    ∧ (980 : ℚ) ≠ 1000 := by
  refine ⟨?_, ?_, by norm_num⟩
  · unfold pvwatts_inverter_eta; norm_num
  · have hmin : min ((98 : ℚ)/100 * 1000)
        (pvwatts_inverter_eta 1000 (98/100) (9637/10000) 1100 * 1100) = 980 := by
      rw [min_eq_left (by unfold pvwatts_inverter_eta; norm_num)]
      norm_num
    show min (max (pvwatts_inverter 1000 (98/100) (9637/10000) 1100) 0) 1000 = 980
    unfold pvwatts_inverter
    rw [hmin, max_eq_right (by norm_num : (0 : ℚ) ≤ 980),
        max_eq_left (by norm_num : (0 : ℚ) ≤ 980)]
    exact min_eq_left (by norm_num)

/-- Claim C4 (amended): the DC power is never negative and, when pac0
is nonnegative, the AC power lies in [0, pac0]; when the efficiency
curve output reaches the internal rated limit eta_inv_nom * pdc0, the
AC power is clamped to min(eta_inv_nom * pdc0, pac0) rather than to
pac0 itself. -/
theorem ac_power_bounds_clamp (inv : InverterParams) (pdc : ℚ)
    (hpac : 0 ≤ inv.pac0) :
    0 ≤ calculate_ac_power inv pdc
    ∧ calculate_ac_power inv pdc ≤ inv.pac0
    ∧ (0 ≤ inv.eta_inv_nom * inv.pdc0 →
       inv.eta_inv_nom * inv.pdc0
         ≤ pvwatts_inverter_eta inv.pdc0 inv.eta_inv_nom inv.eta_inv_ref pdc * pdc →
       calculate_ac_power inv pdc = min (inv.eta_inv_nom * inv.pdc0) inv.pac0)
    ∧ ∀ (sys : SystemParams) (m : ModuleParams) (e ct : ℚ),
        0 ≤ calculate_dc_power sys m e ct := by
  refine ⟨?_, ?_, ?_, ?_⟩
  · exact le_min (le_max_right _ 0) hpac
  · exact min_le_right _ _
  · intro h1 h2
    unfold calculate_ac_power pvwatts_inverter
    rw [min_eq_left h2, max_eq_right h1, max_eq_left h1]
  · intro sys m e ct
    unfold calculate_dc_power
    exact le_max_right _ 0

/-- Witness for C4 at the configured inverter and 1100 kW of DC power. -/
theorem ac_power_bounds_clamp_witness :
    0 ≤ calculate_ac_power INVERTER 1100
    ∧ calculate_ac_power INVERTER 1100 ≤ INVERTER.pac0
    ∧ calculate_ac_power INVERTER 1100
        = min (INVERTER.eta_inv_nom * INVERTER.pdc0) INVERTER.pac0 := by
  obtain ⟨h0, hle, hclamp, _⟩ :=
    ac_power_bounds_clamp INVERTER 1100 (by norm_num [INVERTER])
  exact ⟨h0, hle, hclamp (by norm_num [INVERTER])
    (by simp only [INVERTER]; unfold pvwatts_inverter_eta; norm_num)⟩

/-- Claim C5: the postprocessed IAM lies in [0, 1] for every raw
library output (number or NaN), and for a nonnegative poa_global the
effective POA lies in [0, poa_global]. -/
theorem iam_effective_poa_bounds (raw : Option ℚ) (poaG : ℚ) (h : 0 ≤ poaG) :
    0 ≤ calculate_iam raw ∧ calculate_iam raw ≤ 1
    ∧ 0 ≤ poa_effective_of poaG (calculate_iam raw)
    ∧ poa_effective_of poaG (calculate_iam raw) ≤ poaG := by
  have h0 : 0 ≤ calculate_iam raw := le_min (le_max_right _ 0) zero_le_one
  have h1 : calculate_iam raw ≤ 1 := min_le_right _ _
  refine ⟨h0, h1, le_max_right _ 0, ?_⟩
  apply max_le _ h
  calc poaG * calculate_iam raw ≤ poaG * 1 := mul_le_mul_of_nonneg_left h1 h
    _ = poaG := mul_one _

/-- Witness for C5 at a NaN raw IAM and poa_global = 100. -/
theorem iam_effective_poa_bounds_witness :
    0 ≤ calculate_iam none ∧ calculate_iam none ≤ 1
    ∧ 0 ≤ poa_effective_of 100 (calculate_iam none)
    ∧ poa_effective_of 100 (calculate_iam none) ≤ 100 :=
  iam_effective_poa_bounds none 100 (by norm_num)

/-- Claim C6: for every weather input the run produces one (timestamp,
energy) pair per input sample, positionally aligned and of the same
length, and every energy value is nonnegative (given a nonnegative
rated AC power). -/
theorem run_simulation_shape (sim : PVSimulator) (irr : IrradianceStage)
    (invRaw : InverterRaw) (weather : List WeatherSample)
    (h : 0 ≤ sim.inverter.pac0) :
    (run_simulation sim irr invRaw weather).length = weather.length
    ∧ (run_simulation sim irr invRaw weather).map Prod.fst
        = weather.map WeatherSample.timestamp
    ∧ ∀ q ∈ run_simulation sim irr invRaw weather, 0 ≤ q.2 := by
  refine ⟨by simp [run_simulation], ?_, ?_⟩
  · simp only [run_simulation, List.map_map]
    rfl
  · intro q hq
    simp only [run_simulation, List.mem_map] at hq
    obtain ⟨w, _, rfl⟩ := hq
    show 0 ≤ energy_of sim irr invRaw w
    unfold energy_of ac_power_of
    cases invRaw sim.inverter.pdc0 sim.inverter.eta_inv_nom sim.inverter.eta_inv_ref
        (dc_after_loss_of sim irr w) with
    | none => simp
    | some x =>
      simp only [Option.map_some', Option.getD_some]
      exact le_min (le_max_right x 0) h

/-- Witness for C6 at the configured simulator and a one-sample input. -/
theorem run_simulation_shape_witness :
    (run_simulation sample_sim irr_from_ghi pvwatts_inv_raw sample_weather).length
      = sample_weather.length :=
  (run_simulation_shape sample_sim irr_from_ghi pvwatts_inv_raw sample_weather
    (by norm_num [sample_sim, INVERTER])).1

/-- Counterexample for C7: a tilt of 200 degrees lies outside [0, 90],
yet construction succeeds and simply stores the configuration; no
ConfigurationError is surfaced. -/
theorem init_no_validation_cex :
    (200 : ℚ) > 90
    ∧ pv_simulator_init LOCATION SYSTEM_bad_tilt MODULE INVERTER LOSSES
        = Except.ok { location := LOCATION, system := SYSTEM_bad_tilt,
                      module := MODULE, inverter := INVERTER, loss_params := LOSSES } :=
  ⟨by norm_num, rfl⟩

/-- Claim C7 (amended): construction performs no range validation at
all; for every configuration, in or out of the physical ranges, the
constructor succeeds and returns the stored configuration. -/
theorem init_always_ok (loc : LocationParams) (sys : SystemParams)
    (m : ModuleParams) (inv : InverterParams) (loss : LossProfile) :
    pv_simulator_init loc sys m inv loss
      = Except.ok { location := loc, system := sys, module := m,
                    inverter := inv, loss_params := loss } := rfl

/-- Claim C8: looking up an unconfigured loss-category name fails with
the ConfigurationError kind (returning no modified power), and looking
up a configured name returns power times (1 - loss fraction). -/
theorem apply_individual_loss_spec (L : LossProfile) (p : ℚ) (name : String) :
    (List.lookup name L = none →
      apply_individual_loss L p name = Except.error SimError.configurationError)
    ∧ ∀ v, List.lookup name L = some v →
      apply_individual_loss L p name = Except.ok (p * (1 - v)) := by
  constructor
  · intro h; unfold apply_individual_loss; rw [h]
  · intro v h; unfold apply_individual_loss; rw [h]

/-- Witness for C8: an unknown name fails, the configured soiling entry
applies its derate. -/
theorem apply_individual_loss_witness :
    apply_individual_loss LOSSES 100 "unknown_loss"
      = Except.error SimError.configurationError
    ∧ apply_individual_loss LOSSES 100 "soiling" = Except.ok (100 * (1 - 2/100)) :=
  ⟨(apply_individual_loss_spec LOSSES 100 "unknown_loss").1 rfl,
   (apply_individual_loss_spec LOSSES 100 "soiling").2 (2/100) rfl⟩

/-- Claim C9: the run output and every stage output depend on the
inverter only through pdc0, pac0, eta_inv_nom and eta_inv_ref; two
configurations differing only in pdc_min, pdc_max, vdc_min or vdc_max
produce identical DC power, derated power, AC power and final results,
so in particular DC power below pdc_min is not suppressed. -/
theorem inverter_fields_independence (loc : LocationParams) (sys : SystemParams)
    (m : ModuleParams) (loss : LossProfile) (irr : IrradianceStage)
    (invRaw : InverterRaw) (weather : List WeatherSample)
    (inv1 inv2 : InverterParams)
    (h1 : inv1.pdc0 = inv2.pdc0) (h2 : inv1.pac0 = inv2.pac0)
    (h3 : inv1.eta_inv_nom = inv2.eta_inv_nom)
    (h4 : inv1.eta_inv_ref = inv2.eta_inv_ref) :
    run_simulation ⟨loc, sys, m, inv1, loss⟩ irr invRaw weather
      = run_simulation ⟨loc, sys, m, inv2, loss⟩ irr invRaw weather
    ∧ (∀ pdc, calculate_ac_power inv1 pdc = calculate_ac_power inv2 pdc)
    ∧ (∀ w, dc_power_of ⟨loc, sys, m, inv1, loss⟩ irr w
          = dc_power_of ⟨loc, sys, m, inv2, loss⟩ irr w)
    ∧ ∀ w, dc_after_loss_of ⟨loc, sys, m, inv1, loss⟩ irr w
          = dc_after_loss_of ⟨loc, sys, m, inv2, loss⟩ irr w := by
  refine ⟨?_, ?_, fun w => rfl, fun w => rfl⟩
  · unfold run_simulation energy_of ac_power_of
    simp only [h1, h2, h3, h4]
    rfl
  · intro pdc
    unfold calculate_ac_power pvwatts_inverter pvwatts_inverter_eta
    rw [h1, h2, h3, h4]

/-- Witness for C9: the configured inverter and its variant with other
startup and voltage bounds give identical runs. -/
theorem inverter_fields_independence_witness :
    run_simulation ⟨LOCATION, SYSTEM, MODULE, INVERTER, LOSSES⟩
        irr_from_ghi pvwatts_inv_raw sample_weather
      = run_simulation ⟨LOCATION, SYSTEM, MODULE, INVERTER_alt, LOSSES⟩
        irr_from_ghi pvwatts_inv_raw sample_weather :=
  (inverter_fields_independence LOCATION SYSTEM MODULE LOSSES irr_from_ghi
    pvwatts_inv_raw sample_weather INVERTER INVERTER_alt rfl rfl rfl rfl).1

/-- Claim C10: the final energy value of a sample equals the computed
AC power whenever that value is a number, equals exactly 0 whenever the
computed AC power is NaN, and the run output is exactly the per-sample
energy paired with the timestamps. -/
theorem energy_fillna_spec (sim : PVSimulator) (irr : IrradianceStage)
    (invRaw : InverterRaw) (w : WeatherSample) :
    (∀ x, ac_power_of sim irr invRaw w = some x → energy_of sim irr invRaw w = x)
    ∧ (ac_power_of sim irr invRaw w = none → energy_of sim irr invRaw w = 0)
    ∧ ∀ weather : List WeatherSample,
        run_simulation sim irr invRaw weather
          = weather.map (fun s => (s.timestamp, energy_of sim irr invRaw s)) := by
  refine ⟨?_, ?_, fun _ => rfl⟩
  · intro x hx; unfold energy_of; rw [hx]; rfl
  · intro hx; unfold energy_of; rw [hx]; rfl

/-- Witness for C10 at a NaN AC value: the exported energy is 0. -/
theorem energy_fillna_witness :
    energy_of sample_sim irr_from_ghi none_inv_raw sample_w = 0 :=
  (energy_fillna_spec sample_sim irr_from_ghi none_inv_raw sample_w).2.1 rfl

end PowerForecast
